import Mathlib

/-!
Verification of the medical-ai-agent pipeline (`Medical_ai_agent`):
a shallow embedding of the document-ingestion routine (`ingestion.parse_document`),
the result-merging pipeline entry point (`agents.run_medical_analysis`),
the tool failure boundaries (`agents.build_tools`) and the mock retriever
(`retriever.MockRetriever`), together with theorems settling the spec claims.
-/

set_option autoImplicit false
set_option linter.unusedVariables false
set_option maxRecDepth 16384

namespace MedAgent

/-! ## Python value model

Python values that flow through the merger: JSON-decoded data, the metadata
mapping and the accumulated `results` dict.  `PyKey` is the hashable subset
usable as dict keys; `PyVal` adds lists and dicts. -/

/-- A hashable Python value (usable as a dict key). -/
inductive PyKey where
  | none_
  | bool (b : Bool)
  | int (n : Int)
  /-- A float, represented by its source lexeme (the claims never compare
  float values numerically, so the lexeme is kept verbatim). -/
  | float (lex : String)
  | str (s : String)
deriving DecidableEq, Repr

/-- A Python value as produced by `json.loads` and stored in the results dict. -/
inductive PyVal where
  | prim (k : PyKey)
  | list (xs : List PyVal)
  | dict (kvs : List (PyKey × PyVal))
deriving Repr

/-- A Python `dict` with insertion order, modelled as an association list
with unique keys maintained by `dictSet`. -/
abbrev Dict := List (PyKey × PyVal)

/-- `d[k] = v`: replace the value at an existing key in place (keeping its
position, as CPython dicts do) or append a new entry. -/
def dictSet : Dict → PyKey → PyVal → Dict
  | [], k, v => [(k, v)]
  | (k', v') :: rest, k, v =>
    if k' = k then (k, v) :: rest else (k', v') :: dictSet rest k v

/-- `d.get(k)` / `d[k]`: first entry with the given key. -/
def pyLookup (k : PyKey) : Dict → Option PyVal
  | [] => none
  | (k', v) :: rest => if k' = k then some v else pyLookup k rest

/-- `d.get(k, dflt)`. -/
def pyGet (d : Dict) (k : PyKey) (dflt : PyVal) : PyVal :=
  match pyLookup k d with
  | some v => v
  | none => dflt

/-! Character-list implementations of the Python string primitives the code
uses (`s[:n]`, `str.lower()`, `str.strip()`, `str.split()`,
`str.endswith`, `in`), chosen so that every definition evaluates by plain
kernel reduction. -/

/-- Python `s[:n]` (slicing counts code points, as Lean chars do). -/
def strTake (s : String) (n : Nat) : String := String.mk (s.data.take n)

/-- Python `str.lower()` (ASCII case map; the inputs involved are ASCII). -/
def pyLower (s : String) : String := String.mk (s.data.map Char.toLower)

/-- Python `str.strip()` with no argument (whitespace; modelled with Lean's
whitespace class, which covers the characters appearing here). -/
def pyStrip (s : String) : String :=
  String.mk (((s.data.dropWhile Char.isWhitespace).reverse.dropWhile
    Char.isWhitespace).reverse)

/-- Python `s.endswith(suffix)`. -/
def strEndsWith (s suffix : String) : Bool :=
  suffix.data.reverse.isPrefixOf s.data.reverse

/-- Python `str.split()` with no argument: maximal nonempty runs of
non-whitespace characters. -/
def wordsAux : Nat → List Char → List String
  | 0, _ => []
  | fuel + 1, cs =>
    match cs.dropWhile Char.isWhitespace with
    | [] => []
    | c :: rest =>
      let w := (c :: rest).takeWhile (fun ch => !ch.isWhitespace)
      String.mk w :: wordsAux fuel ((c :: rest).drop w.length)

def pySplitWs (s : String) : List String := wordsAux (s.data.length + 1) s.data

/-! ## `json.loads`

A strict JSON reader following CPython's `json` module grammar:
`[ \t\n\r]` whitespace, strict strings (unescaped control characters
rejected), numbers per `-?(0|[1-9][0-9]*)(\.[0-9]+)?([eE][+-]?[0-9]+)?`,
plus the CPython extensions `NaN`, `Infinity` and `-Infinity`.  Duplicate
object keys follow dict semantics (last value wins, first position kept).
A lone UTF-16 surrogate escape is mapped to U+FFFD (Lean strings cannot
hold surrogates; no claim depends on this corner). -/

def isJsonWs (c : Char) : Bool :=
  c = ' ' || c = '\t' || c = '\n' || c = '\r'

def skipWs : List Char → List Char
  | [] => []
  | c :: cs => if isJsonWs c then skipWs cs else c :: cs

/-- Value of one hexadecimal digit (the code-point ranges 48-57, 97-102 and
65-70 are 0-9, a-f and A-F). -/
def hexVal (c : Char) : Option Nat :=
  let n := c.toNat
  if 48 ≤ n && n ≤ 57 then some (n - 48)
  else if 97 ≤ n && n ≤ 102 then some (n - 87)
  else if 65 ≤ n && n ≤ 70 then some (n - 55)
  else none

/-- A checked code point: valid code points go through, anything else
(lone surrogates) becomes U+FFFD. -/
def mkUChar (n : Nat) : Char :=
  if n.isValidChar then Char.ofNat n else '�'

/-- Decode the body of a JSON string (after the opening quote); returns the
content characters and the remaining input after the closing quote.
Fuelled so that it computes by kernel reduction; `readJString` supplies
enough fuel (one unit per input character). -/
def parseJString : Nat → List Char → Option (List Char × List Char)
  | 0, _ => none
  | _, [] => none
  | _ + 1, '"' :: cs => some ([], cs)
  | fuel + 1, '\\' :: e :: cs =>
    let simple : Option Char :=
      if e = '"' then some '"'
      else if e = '\\' then some '\\'
      else if e = '/' then some '/'
      else if e = 'b' then some (Char.ofNat 8)
      else if e = 'f' then some (Char.ofNat 12)
      else if e = 'n' then some '\n'
      else if e = 'r' then some '\r'
      else if e = 't' then some '\t'
      else none
    match simple with
    | some c => (parseJString fuel cs).map (fun p => (c :: p.1, p.2))
    | none =>
      if e = 'u' then
        match cs with
        | a :: b :: c2 :: d :: rest =>
          match hexVal a, hexVal b, hexVal c2, hexVal d with
          | some ha, some hb, some hc, some hd =>
            let n := ((ha * 16 + hb) * 16 + hc) * 16 + hd
            if 0xD800 ≤ n && n ≤ 0xDBFF then
              -- look for a low surrogate to pair with
              match rest with
              | '\\' :: 'u' :: a2 :: b2 :: c3 :: d2 :: rest2 =>
                match hexVal a2, hexVal b2, hexVal c3, hexVal d2 with
                | some ha2, some hb2, some hc2, some hd2 =>
                  let n2 := ((ha2 * 16 + hb2) * 16 + hc2) * 16 + hd2
                  if 0xDC00 ≤ n2 && n2 ≤ 0xDFFF then
                    let cp := 0x10000 + (n - 0xD800) * 0x400 + (n2 - 0xDC00)
                    (parseJString fuel rest2).map (fun p => (mkUChar cp :: p.1, p.2))
                  else
                    (parseJString fuel rest2).map
                      (fun p => (mkUChar n :: mkUChar n2 :: p.1, p.2))
                | _, _, _, _ => none
              | _ => (parseJString fuel rest).map (fun p => (mkUChar n :: p.1, p.2))
            else
              (parseJString fuel rest).map (fun p => (mkUChar n :: p.1, p.2))
          | _, _, _, _ => none
        | _ => none
      else none
  | _ + 1, '\\' :: [] => none
  | fuel + 1, c :: cs =>
    if c.toNat < 0x20 then none
    else (parseJString fuel cs).map (fun p => (c :: p.1, p.2))

/-- `parseJString` with enough fuel for its input. -/
def readJString (cs : List Char) : Option (List Char × List Char) :=
  parseJString (cs.length + 1) cs

/-- Digit span: leading digits and the rest. -/
def takeDigits : List Char → List Char × List Char
  | [] => ([], [])
  | c :: cs =>
    if c.isDigit then
      let (ds, r) := takeDigits cs
      (c :: ds, r)
    else ([], c :: cs)

def digitsToNat (ds : List Char) : Nat :=
  ds.foldl (fun n c => n * 10 + (c.toNat - '0'.toNat)) 0

/-- Integer part per the JSON grammar: `0` or a nonzero digit followed by digits. -/
def parseIntPart : List Char → Option (List Char × List Char)
  | [] => none
  | c :: cs =>
    if c = '0' then some (['0'], cs)
    else if c.isDigit then
      let (ds, r) := takeDigits cs
      some (c :: ds, r)
    else none

/-- Optional fraction part `.[0-9]+`; returns `([], cs)` when absent. -/
def parseFracPart : List Char → List Char × List Char
  | '.' :: cs =>
    match takeDigits cs with
    | ([], _) => ([], '.' :: cs)
    | (ds, r) => ('.' :: ds, r)
  | cs => ([], cs)

/-- Optional exponent part `[eE][+-]?[0-9]+`; returns `([], cs)` when absent. -/
def parseExpPart : List Char → List Char × List Char
  | e :: cs =>
    if e = 'e' || e = 'E' then
      match cs with
      | s :: cs' =>
        if s = '+' || s = '-' then
          match takeDigits cs' with
          | ([], _) => ([], e :: cs)
          | (ds, r) => (e :: s :: ds, r)
        else
          match takeDigits cs with
          | ([], _) => ([], e :: cs)
          | (ds, r) => (e :: ds, r)
      | [] => ([], [e])
    else ([], e :: cs)
  | [] => ([], [])

/-- Strip an optional leading minus sign, recording whether it was there. -/
def splitSign : List Char → Bool × List Char
  | '-' :: r => (true, r)
  | cs => (false, cs)

/-- Lex a JSON number starting at `cs` (which may begin with `-`).
Pure integers decode to Python `int`; anything with a fraction or exponent
decodes to a float carrying its lexeme. -/
def parseNumber (cs : List Char) : Option (PyVal × List Char) :=
  let (neg, cs1) := splitSign cs
  match parseIntPart cs1 with
  | none => none
  | some (ids, cs2) =>
    let (fds, cs3) := parseFracPart cs2
    let (eds, cs4) := parseExpPart cs3
    if fds.isEmpty && eds.isEmpty then
      let n : Int := Int.ofNat (digitsToNat ids)
      some (.prim (.int (if neg then -n else n)), cs4)
    else
      let lex := (if neg then "-" else "") ++ String.mk (ids ++ fds ++ eds)
      some (.prim (.float lex), cs4)

/-- Match a literal keyword tail (`rue`, `alse`, ...). -/
def expectLit (lit : String) (cs : List Char) (v : PyVal) : Option (PyVal × List Char) :=
  if lit.data.isPrefixOf cs then some (v, cs.drop lit.length) else none

mutual

/-- Parse one JSON value.  The fuel argument strictly exceeds the remaining
input length, so it never runs out on `loads`-supplied fuel. -/
def parseValue : Nat → List Char → Option (PyVal × List Char)
  | 0, _ => none
  | fuel + 1, cs =>
    match cs with
    | [] => none
    | c :: rest =>
      if c = '{' then
        let r1 := skipWs rest
        match r1 with
        | '}' :: r => some (.dict [], r)
        | _ => parseMembers fuel [] r1
      else if c = '[' then
        let r1 := skipWs rest
        match r1 with
        | ']' :: r => some (.list [], r)
        | _ => parseItems fuel [] r1
      else if c = '"' then
        (readJString rest).map (fun p => (.prim (.str (String.mk p.1)), p.2))
      else if c = 't' then expectLit "rue" rest (.prim (.bool true))
      else if c = 'f' then expectLit "alse" rest (.prim (.bool false))
      else if c = 'n' then expectLit "ull" rest (.prim .none_)
      else if c = 'N' then expectLit "aN" rest (.prim (.float "NaN"))
      else if c = 'I' then expectLit "nfinity" rest (.prim (.float "Infinity"))
      else if c = '-' then
        match rest with
        | 'I' :: r => expectLit "nfinity" r (.prim (.float "-Infinity"))
        | _ => parseNumber cs
      else if c.isDigit then parseNumber cs
      else none

/-- Parse the members of a JSON object after `{` (nonempty case); duplicate
keys overwrite via `dictSet`, exactly as repeated `d[k] = v` does. -/
def parseMembers : Nat → List (PyKey × PyVal) → List Char → Option (PyVal × List Char)
  | 0, _, _ => none
  | fuel + 1, acc, cs =>
    match skipWs cs with
    | '"' :: r =>
      match readJString r with
      | none => none
      | some (kcs, r2) =>
        match skipWs r2 with
        | ':' :: r3 =>
          match parseValue fuel (skipWs r3) with
          | none => none
          | some (v, r4) =>
            let acc' := dictSet acc (.str (String.mk kcs)) v
            match skipWs r4 with
            | ',' :: r5 => parseMembers fuel acc' r5
            | '}' :: r5 => some (.dict acc', r5)
            | _ => none
        | _ => none
    | _ => none

/-- Parse the items of a JSON array after `[` (nonempty case). -/
def parseItems : Nat → List PyVal → List Char → Option (PyVal × List Char)
  | 0, _, _ => none
  | fuel + 1, acc, cs =>
    match parseValue fuel (skipWs cs) with
    | none => none
    | some (v, r) =>
      match skipWs r with
      | ',' :: r2 => parseItems fuel (acc ++ [v]) r2
      | ']' :: r2 => some (.list (acc ++ [v]), r2)
      | _ => none

end

/-- `json.loads`: strict parse of the whole string, allowing surrounding
whitespace; `none` models a raised `JSONDecodeError`. -/
def loads (s : String) : Option PyVal :=
  match parseValue (s.length * 2 + 4) (skipWs s.data) with
  | some (v, rest) => if skipWs rest = [] then some v else none
  | none => none

/-! ## `dict.update`

CPython's `dict.update(x)` treats a mapping argument via key-by-key
merge and any other argument as an iterable of key-value pairs
(`PyDict_MergeFromSeq2`): each element must itself be iterable of length
two with a hashable first component.  Crucially the merge mutates as it
goes, so a failure midway leaves the pairs seen so far in the dict; the
boolean in the result records whether the call completed without raising. -/

/-- Hashability check used when a sequence element provides a dict key:
lists and dicts raise `TypeError: unhashable type`. -/
def toKey : PyVal → Option PyKey
  | .prim k => some k
  | .list _ => none
  | .dict _ => none

/-- Python iteration over a value: lists yield their elements, strings
their characters (as one-character strings), dicts their keys; scalars are
not iterable (`TypeError`). -/
def pyIterSeq : PyVal → Option (List PyVal)
  | .list xs => some xs
  | .prim (.str s) => some (s.data.map (fun c => .prim (.str (String.singleton c))))
  | .dict kvs => some (kvs.map (fun kv => .prim kv.1))
  | _ => none

/-- One update-sequence element: must iterate to exactly two values, the
first of which is hashable; otherwise the update raises at this element. -/
def seqPair2 (item : PyVal) : Option (PyKey × PyVal) :=
  match pyIterSeq item with
  | some [a, b] =>
    match toKey a with
    | some k => some (k, b)
    | none => none
  | _ => none

/-- `PyDict_MergeFromSeq2`: insert pairs left to right, stopping at the
first bad element; returns the (possibly partially updated) dict and
whether the whole sequence was consumed without raising. -/
def mergeFromSeq2 : Dict → List PyVal → Dict × Bool
  | r, [] => (r, true)
  | r, item :: rest =>
    match seqPair2 item with
    | none => (r, false)
    | some (k, v) => mergeFromSeq2 (dictSet r k v) rest

/-- `r.update(v)`: mapping arguments merge all their entries; any other
argument is treated as a sequence of key-value pairs.  The boolean is
`false` exactly when the call raises (`TypeError`/`ValueError`). -/
def dictUpdate (r : Dict) (v : PyVal) : Dict × Bool :=
  match v with
  | .dict kvs => (kvs.foldl (fun a kv => dictSet a kv.1 kv.2) r, true)
  | _ =>
    match pyIterSeq v with
    | none => (r, false)
    | some items => mergeFromSeq2 r items

/-- The pairs a sequence-style update inserts before its first bad element. -/
def seqPairsTaken : List PyVal → List (PyKey × PyVal)
  | [] => []
  | item :: rest =>
    match seqPair2 item with
    | none => []
    | some p => p :: seqPairsTaken rest

/-- The pairs `r.update(v)` writes, in write order (base-independent). -/
def updPairs (v : PyVal) : List (PyKey × PyVal) :=
  match v with
  | .dict kvs => kvs
  | _ =>
    match pyIterSeq v with
    | none => []
    | some items => seqPairsTaken items

/-! ## Result merging (`agents.run_medical_analysis`, lines 357-377)

```
results = {}
try:    results.update(json.loads(d_task.output.raw_output))
except Exception: results["summary"] = str(d_task.output.raw_output)[:2000]
try:    results.update(json.loads(p_task.output.raw_output))
except Exception: pass
... (same for l_task, m_task) ...
results["raw_text"] = raw_text[:3000]
results["pages"] = metadata.get("pages", "N/A")
```
-/

/-- The guarded merge of one non-diagnosis stage: `json.loads` failure or an
`update` failure is swallowed, keeping whatever was merged before the raise. -/
def mergeStage (r : Dict) (s : String) : Dict :=
  match loads s with
  | none => r
  | some v => (dictUpdate r v).1

/-- The guarded merge of the diagnosis stage: on any raise (parse failure or
`update` failure) the handler stores the first 2000 characters of the raw
output under `summary`. -/
def mergeDiagnosis (r : Dict) (s : String) : Dict :=
  match loads s with
  | none => dictSet r (.str "summary") (.prim (.str (strTake s 2000)))
  | some v =>
    if (dictUpdate r v).2 then (dictUpdate r v).1
    else dictSet (dictUpdate r v).1 (.str "summary") (.prim (.str (strTake s 2000)))

/-- Steps 7 of `run_medical_analysis`: merge the four raw stage outputs in
order diagnosis, prognosis, lifestyle, medication, then append `raw_text`
and `pages`. -/
def mergeResults (dOut pOut lOut mOut : String) (rawText : String)
    (metadata : Dict) : Dict :=
  let r1 := mergeDiagnosis [] dOut
  let r2 := mergeStage r1 pOut
  let r3 := mergeStage r2 lOut
  let r4 := mergeStage r3 mOut
  let r5 := dictSet r4 (.str "raw_text") (.prim (.str (strTake rawText 3000)))
  dictSet r5 (.str "pages") (pyGet metadata (.str "pages") (.prim (.str "N/A")))

/-- The keys a non-diagnosis stage output contributes to the results dict
(the keys its guarded merge writes; independent of the accumulator). -/
def stageContribKeys (s : String) : List PyKey :=
  (mergeStage [] s).map Prod.fst

/-- The keys the diagnosis stage contributes (including the `summary`
fallback when its merge raises). -/
def diagContribKeys (s : String) : List PyKey :=
  (mergeDiagnosis [] s).map Prod.fst

/-! ## Document ingestion (`ingestion.parse_document`)

The external libraries (`pdfplumber`, `pypdf`, `pytesseract`/`PIL`) and the
two standard-library helpers (`hashlib.sha256(...).hexdigest()[:16]` and
`bytes.decode("utf-8", errors="ignore")`) are collaborators outside this
repository; an `IngestEnv` records the outcome each of them would produce
for the call.  `ExtLib.importError` is a raised `ImportError`,
`ExtLib.exn` any other exception.  The PDF branch catches `ImportError`
only, so an `ExtLib.exn` outcome there propagates out of `parse_document`;
the image branch catches everything. -/

/-- Result of calling into an external library that is imported inside the
guarded block: the import may fail, or the calls may raise. -/
inductive ExtLib (α : Type) where
  | ok (a : α)
  | importError
  | exn (msg : String)

/-- Result of an external call whose import already succeeded (or whose
handler does not distinguish `ImportError`). -/
inductive PyResult (α : Type) where
  | ok (a : α)
  | exn (msg : String)

/-- The uploaded artifact as seen by `parse_document`: Streamlit's
`uploaded_file.name`, `.type` and the bytes from `.read()`. -/
structure UploadedFile where
  name : String
  ftype : String
  contents : List Nat

/-- Outcomes of every external collaborator `parse_document` may touch in
one call. `pdfplumber`/`pypdf` deliver the per-page extracted texts (after
the `or ""` in the source); `ocrPdfPage n` is the pytesseract call made by
`_ocr_pdf_page` on page `n`; `imageOcr` covers the whole
`PIL.Image.open`/`convert`/`pytesseract.image_to_string` sequence. -/
structure IngestEnv where
  pdfplumber : ExtLib (List String)
  ocrPdfPage : Nat → PyResult String
  pypdf : ExtLib (List String)
  imageOcr : ExtLib String
  sha256hex16 : List Nat → String
  decodeUtf8Ignore : List Nat → String

/-- `_ocr_pdf_page(page, page_num)`: catches every exception and returns an
error sentinel mentioning the page number. -/
def ocrPdfPageText (env : IngestEnv) (n : Nat) : String :=
  match env.ocrPdfPage n with
  | .ok t => t
  | .exn e => "[OCR failed for page " ++ toString n ++ ": " ++ e ++ "]"

/-- Per-page text in the pdfplumber branch: pages whose stripped text is
shorter than 50 characters are OCRed instead. -/
def pdfPageText (env : IngestEnv) (n : Nat) (t : String) : String :=
  if (pyStrip t).length < 50 then ocrPdfPageText env n else t

def imageExtensions : List String :=
  [".png", ".jpg", ".jpeg", ".tiff", ".tif", ".bmp"]

/-- `ingestion.parse_document`: returns the extracted text and the metadata
dict, or `Except.error` when an exception escapes (which happens exactly
when a PDF parsing library raises something other than `ImportError`). -/
def baseMetadata (env : IngestEnv) (f : UploadedFile) : Dict :=
  [(.str "filename", .prim (.str f.name)),
   (.str "file_type", .prim (.str f.ftype)),
   (.str "file_size_kb", .prim (.int (f.contents.length / 1024))),
   (.str "pages", .prim (.int 1)),
   (.str "hash", .prim (.str (env.sha256hex16 f.contents)))]

def parse_document (env : IngestEnv) (f : UploadedFile) :
    Except String (String × Dict) :=
  let fname := pyLower f.name
  let metadata : Dict := baseMetadata env f
  if strEndsWith fname ".pdf" then
    match env.pdfplumber with
    | .ok pages =>
      let md := dictSet metadata (.str "pages") (.prim (.int pages.length))
      let parts := pages.enum.map (fun p =>
        "[PAGE " ++ toString (p.1 + 1) ++ "]\n" ++ pdfPageText env (p.1 + 1) p.2)
      .ok (String.intercalate "\n\n" parts, md)
    | .exn e => .error e
    | .importError =>
      match env.pypdf with
      | .ok pages =>
        let md := dictSet metadata (.str "pages") (.prim (.int pages.length))
        .ok (String.intercalate "\n" pages, md)
      | .exn e => .error e
      | .importError => .ok ("[PDF parsing failed - install pdfplumber]", metadata)
  else if imageExtensions.any (fun ext => strEndsWith fname ext) then
    match env.imageOcr with
    | .ok t =>
      .ok (t, dictSet metadata (.str "ocr_engine") (.prim (.str "tesseract")))
    | .importError => .ok ("[Image OCR failed - install pytesseract]", metadata)
    | .exn e => .ok ("[OCR Error: " ++ e ++ "]", metadata)
  else
    .ok (env.decodeUtf8Ignore f.contents, metadata)

/-- `agents.run_medical_analysis`: parse the document, then (externally)
index it, build tools/agents/tasks and run the sequential crew — the crew,
an external LLM service, yields the four raw stage-output strings supplied
here as `dOut pOut lOut mOut` — and finally merge the results.
`index_document`, `get_retriever` and `get_graph_engine` catch all their
exceptions internally and do not affect the returned dict, so the only
modelled exception path is `parse_document`; the flags only select which
collaborators the (external) agents talk to. -/
def run_medical_analysis (env : IngestEnv) (f : UploadedFile)
    (use_graphrag : Bool) (use_pinecone : Bool)
    (dOut pOut lOut mOut : String) : Except String Dict :=
  match parse_document env f with
  | .error e => .error e
  | .ok (rawText, metadata) =>
    .ok (mergeResults dOut pOut lOut mOut rawText metadata)

/-! ## Tools (`agents.build_tools`)

Each tool wraps its collaborator call in `try/except Exception`; a raise is
modelled by `PyResult.exn` carrying `str(e)`. -/

/-- A LangChain document: only `page_content` is consumed by the tools. -/
structure DocM where
  page_content : String

/-- The retriever collaborator (live Pinecone retriever or the mock). -/
structure RetrieverM where
  similarity_search : String → Nat → PyResult (List DocM)

/-- The graph engine collaborator (`MedicalGraphEngine.query`). -/
structure GraphM where
  query : String → PyResult PyVal

/-- The Entrez/Biopython collaborator used by `pubmed_search` (covers the
`from Bio import Entrez` import and the esearch/read calls; delivers the
PMID id list). -/
structure EntrezM where
  esearch : String → PyResult (List String)

/-- Lowercase 4-digit hex, as in Python's `\uxxxx` escapes. -/
def hexDigit (n : Nat) : Char :=
  if n < 10 then Char.ofNat ('0'.toNat + n) else Char.ofNat ('a'.toNat + n - 10)

def hex4 (n : Nat) : String :=
  String.mk [hexDigit (n / 4096 % 16), hexDigit (n / 256 % 16),
             hexDigit (n / 16 % 16), hexDigit (n % 16)]

/-- `json.dumps` escaping of one character (`ensure_ascii=True`). -/
def jsonEscapeChar (c : Char) : String :=
  if c = '"' then "\\\""
  else if c = '\\' then "\\\\"
  else if c = '\n' then "\\n"
  else if c = '\r' then "\\r"
  else if c = '\t' then "\\t"
  else if c.toNat = 8 then "\\b"
  else if c.toNat = 12 then "\\f"
  else if c.toNat < 0x20 then "\\u" ++ hex4 c.toNat
  else if c.toNat < 0x7F then String.singleton c
  else if c.toNat < 0x10000 then "\\u" ++ hex4 c.toNat
  else
    let n := c.toNat - 0x10000
    "\\u" ++ hex4 (0xD800 + n / 0x400) ++ "\\u" ++ hex4 (0xDC00 + n % 0x400)

def dumpsStr (s : String) : String :=
  "\"" ++ String.join (s.data.map jsonEscapeChar) ++ "\""

/-- A scalar rendered by `json.dumps` (floats render as their lexeme — an
approximation of `repr(float)` that agrees on the values the claims use). -/
def dumpsPrim : PyKey → String
  | .none_ => "null"
  | .bool true => "true"
  | .bool false => "false"
  | .int n => toString n
  | .float lex => lex
  | .str s => dumpsStr s

/-- Non-string dict keys are coerced to their JSON string form by `dumps`. -/
def dumpsKey : PyKey → String
  | .str s => dumpsStr s
  | k => "\"" ++ dumpsPrim k ++ "\""

def jsonIndent (lvl : Nat) : String := String.mk (List.replicate (lvl * 2) ' ')

mutual

/-- `json.dumps(v, indent=2)` at nesting level `lvl`. -/
def dumpsVal (lvl : Nat) : PyVal → String
  | .prim k => dumpsPrim k
  | .list [] => "[]"
  | .list (x :: xs) =>
    "[\n" ++ String.intercalate ",\n" (dumpsItems (lvl + 1) (x :: xs)) ++
      "\n" ++ jsonIndent lvl ++ "]"
  | .dict [] => "\x7b\x7d"
  | .dict (kv :: kvs) =>
    "\x7b\n" ++ String.intercalate ",\n" (dumpsPairs (lvl + 1) (kv :: kvs)) ++
      "\n" ++ jsonIndent lvl ++ "\x7d"

def dumpsItems (lvl : Nat) : List PyVal → List String
  | [] => []
  | v :: vs => (jsonIndent lvl ++ dumpsVal lvl v) :: dumpsItems lvl vs

def dumpsPairs (lvl : Nat) : List (PyKey × PyVal) → List String
  | [] => []
  | (k, v) :: kvs =>
    (jsonIndent lvl ++ dumpsKey k ++ ": " ++ dumpsVal lvl v) :: dumpsPairs lvl kvs

end

/-- Python `repr` of a list of strings, as interpolated by the f-string in
`pubmed_search` (ids contain no quotes, so simple quoting suffices). -/
def pyStrListRepr (xs : List String) : String :=
  "[" ++ String.intercalate ", " (xs.map (fun s => "'" ++ s ++ "'")) ++ "]"

/-- Tool `medical_vector_search` (`build_tools.vector_search`). -/
def vector_search (retr : RetrieverM) (query : String) : String :=
  match retr.similarity_search query 5 with
  | .ok rs => String.intercalate "\n---\n" (rs.map DocM.page_content)
  | .exn e => "Vector search error: " ++ e

/-- Tool `medical_graph_query` (`build_tools.graph_query`). -/
def graph_query (g : GraphM) (query : String) : String :=
  match g.query query with
  | .ok result => dumpsVal 0 result
  | .exn e => "Graph query error: " ++ e

/-- Tool `pubmed_research_search` (`build_tools.pubmed_search`). -/
def pubmed_search (ent : EntrezM) (query : String) : String :=
  match ent.esearch query with
  | .ok ids => "PubMed IDs found: " ++ pyStrListRepr ids
  | .exn e => "PubMed search unavailable (install biopython): " ++ e

/-- Tool `drugbank_medication_lookup` (`build_tools.drugbank_lookup`). -/
def drugbank_lookup (retr : RetrieverM) (drug_name : String) : String :=
  match retr.similarity_search
      ("drug:" ++ drug_name ++ " mechanism dosage side effects") 3 with
  | .ok rs => String.intercalate "\n" (rs.map DocM.page_content)
  | .exn e => "Drug lookup error: " ++ e

/-- `agents.build_tools`: the four named tools, in registration order. -/
def build_tools (retr : RetrieverM) (g : GraphM) (ent : EntrezM) :
    List (String × (String → String)) :=
  [("medical_vector_search", vector_search retr),
   ("medical_graph_query", graph_query g),
   ("pubmed_research_search", pubmed_search ent),
   ("drugbank_medication_lookup", drugbank_lookup retr)]

/-! ## Mock retriever (`retriever.MockRetriever`) -/

/-- `sub` occurs as a contiguous run of `l`. -/
def listInfixOf (sub : List Char) : List Char → Bool
  | [] => sub.isEmpty
  | c :: rest => sub.isPrefixOf (c :: rest) || listInfixOf sub rest

/-- Python `sub in s` (substring containment). -/
def strContainsSub (s sub : String) : Bool := listInfixOf sub.data s.data

def MOCK_DOCS : List String :=
  ["Type 2 Diabetes Mellitus: A chronic metabolic disorder characterized by insulin resistance. First-line treatment includes Metformin 500-2000mg/day. HbA1c target: <7%. Associated with cardiovascular risk, nephropathy, retinopathy, and neuropathy.",
   "Hypertension Stage 1: Blood pressure 130-139/80-89 mmHg. Lifestyle interventions include DASH diet, weight loss, reduced sodium intake (<2.3g/day), exercise 150min/week. First-line medications: ACE inhibitors, ARBs, thiazide diuretics, CCBs.",
   "Metformin (DB00331): Biguanide antidiabetic. Mechanism: Activates AMPK, reduces hepatic gluconeogenesis, improves insulin sensitivity. Dosage: 500-1000mg twice daily with meals. Contraindicated in eGFR <30, active liver disease. Monitor renal function annually.",
   "Cardiovascular Risk Assessment: Framingham Risk Score considers age, sex, total cholesterol, HDL, systolic BP, smoking status, diabetes status. 10-year risk >10% warrants statin therapy. Mediterranean diet reduces CV events by 30%. Statin initiation: LDL >190mg/dL or 10yr risk >7.5%",
   "Hetionet Disease-Drug Relations: Type 2 Diabetes (DOID:9352) treated by Metformin (DB00331), Glipizide (DB01067), Insulin (DB00071). Disease associates with Gene: INS, PPARG, TCF7L2. Anatomy: Pancreas, Liver, Adipose tissue."]

/-- `MockRetriever.get_relevant_documents`: keep the canned docs containing
any of the first five lowercased query words; fall back to the first doc. -/
def mock_get_relevant_documents (query : String) : List String :=
  let ql := pyLower query
  let queryWords := (pySplitWs ql).take 5
  let relevant := MOCK_DOCS.filter (fun doc =>
    queryWords.any (fun w => strContainsSub (pyLower doc) w))
  if relevant.isEmpty then [MOCK_DOCS.headD ""] else relevant.take 5

/-- `MockRetriever.similarity_search`. -/
def mock_similarity_search (query : String) (k : Nat) : List String :=
  (mock_get_relevant_documents query).take k

/-- The mock retriever plugged in as the tools' collaborator; its Python
body is a pure comprehension over static data, so it never raises. -/
def mockRetrieverM : RetrieverM :=
  ⟨fun q k => .ok ((mock_similarity_search q k).map DocM.mk)⟩

/-- The `medical_vector_search` result of the `i`-th successive call against
the mock retriever.  `MockRetriever` holds no mutable state (its answers
are computed from the static `MOCK_DOCS`), so the call index is inert —
which is exactly the determinism the spec claims. -/
def mock_vector_search_call (i : Nat) : String :=
  vector_search mockRetrieverM "diabetes"

/-! ## Documented stage schemas (section 4.2's output-keys table; the
top-level keys of the JSON templates in `agents.build_tasks`) -/

def diagnosisSchemaKeys : List PyKey :=
  [.str "summary", .str "conditions", .str "risk_score", .str "confidence"]

def prognosisSchemaKeys : List PyKey := [.str "risks"]

def lifestyleSchemaKeys : List PyKey :=
  [.str "diet", .str "exercises", .str "sleep_recommendation",
   .str "stress_management"]

def medicationSchemaKeys : List PyKey :=
  [.str "medications", .str "interactions_warning", .str "stop_medications"]

/-! ## Concrete scenarios used by witnesses and counterexamples -/

/-- A plain-text upload ("Hi", 2 bytes). -/
def txtFile : UploadedFile := ⟨"report.txt", "text/plain", [72, 105]⟩

/-- A PDF upload. -/
def pdfFile : UploadedFile := ⟨"scan.pdf", "application/pdf", [37, 80, 68, 70]⟩

/-- An image upload. -/
def imgFile : UploadedFile := ⟨"xray.png", "image/png", [137, 80, 78, 71]⟩

/-- A world where none of the optional parsing libraries are installed. -/
def bareEnv : IngestEnv :=
  ⟨.importError, fun _ => .exn "tesseract not found", .importError,
   .importError, fun _ => "deadbeef00112233", fun _ => "Hi"⟩

/-- A world where pdfplumber is installed but raises on a malformed PDF. -/
def badPdfEnv : IngestEnv :=
  ⟨.exn "PDFSyntaxError: No /Root object! - Is this really a PDF?",
   fun _ => .ok "", .importError, .importError,
   fun _ => "deadbeef00112233", fun _ => ""⟩

/-- A world where pdfplumber is missing and pypdf raises on a malformed PDF. -/
def badPypdfEnv : IngestEnv :=
  ⟨.importError, fun _ => .ok "", .exn "EOF marker not found",
   .importError, fun _ => "deadbeef00112233", fun _ => ""⟩

/-- A world where the image OCR call raises. -/
def ocrErrEnv : IngestEnv :=
  ⟨.importError, fun _ => .ok "",
   .importError, .exn "tesseract is not installed or not in PATH",
   fun _ => "deadbeef00112233", fun _ => ""⟩

/-- The metadata `parse_document` produces for `txtFile` under `bareEnv`. -/
def mdTxt : Dict :=
  [(.str "filename", .prim (.str "report.txt")),
   (.str "file_type", .prim (.str "text/plain")),
   (.str "file_size_kb", .prim (.int 0)),
   (.str "pages", .prim (.int 1)),
   (.str "hash", .prim (.str "deadbeef00112233"))]

/-- An Entrez collaborator whose call raises. -/
def failingEntrez : EntrezM := ⟨fun _ => .exn "boom"⟩

/-- A retriever collaborator whose calls raise. -/
def failingRetriever : RetrieverM := ⟨fun _ _ => .exn "connection refused"⟩

/-- A graph engine collaborator whose calls raise. -/
def failingGraph : GraphM := ⟨fun _ => .exn "connection refused"⟩

/-! ## Dictionary lemmas -/

/-- Last-wins association lookup: the value the repeated `d[k] = v` writes
of a pair list leave at key `k`. -/
def objGet (k : PyKey) : List (PyKey × PyVal) → Option PyVal
  | [] => none
  | (k', v) :: rest =>
    match objGet k rest with
    | some w => some w
    | none => if k' = k then some v else none

theorem pyLookup_dictSet (d : Dict) (k : PyKey) (v : PyVal) (k' : PyKey) :
    pyLookup k' (dictSet d k v) = if k' = k then some v else pyLookup k' d := by
  induction d with
  | nil =>
    by_cases h : k' = k
    · subst h; simp [dictSet, pyLookup]
    · have h2 : ¬k = k' := fun hh => h hh.symm
      simp [dictSet, pyLookup, h, h2]
  | cons kv rest ih =>
    obtain ⟨k₀, v₀⟩ := kv
    by_cases h₀ : k₀ = k
    · subst h₀
      by_cases h' : k' = k₀
      · subst h'; simp [dictSet, pyLookup]
      · have h2 : ¬k₀ = k' := fun hh => h' hh.symm
        simp [dictSet, pyLookup, h', h2]
    · by_cases h' : k' = k₀
      · subst h'
        simp [dictSet, pyLookup, h₀, ih]
      · have h0' : ¬k₀ = k' := fun hh => h' hh.symm
        simp [dictSet, pyLookup, h₀, h', h0', ih]

theorem mem_fst_dictSet (d : Dict) (k : PyKey) (v : PyVal) (a : PyKey) :
    a ∈ (dictSet d k v).map Prod.fst ↔ a = k ∨ a ∈ d.map Prod.fst := by
  induction d with
  | nil => simp [dictSet]
  | cons kv rest ih =>
    obtain ⟨k₀, v₀⟩ := kv
    by_cases h₀ : k₀ = k
    · subst h₀
      simp [dictSet]
    · simp [dictSet, h₀, ih]
      tauto

theorem pyLookup_eq_none_iff (k : PyKey) (d : Dict) :
    pyLookup k d = none ↔ k ∉ d.map Prod.fst := by
  induction d with
  | nil => simp [pyLookup]
  | cons kv rest ih =>
    obtain ⟨k₀, v₀⟩ := kv
    by_cases h₀ : k₀ = k
    · subst h₀
      simp [pyLookup]
    · have h0' : ¬k = k₀ := fun hh => h₀ hh.symm
      simp [pyLookup, h₀, h0', ih]

/-- Folding `d[k] = v` over a pair list: the result of a lookup is the
last-wins value from the pairs, else whatever the base dict held. -/
theorem pyLookup_foldl_dictSet (kvs : List (PyKey × PyVal)) (r : Dict) (k : PyKey) :
    pyLookup k (kvs.foldl (fun a kv => dictSet a kv.1 kv.2) r) =
      (objGet k kvs).or (pyLookup k r) := by
  induction kvs generalizing r with
  | nil => simp [objGet]
  | cons kv rest ih =>
    obtain ⟨k₀, v₀⟩ := kv
    rw [List.foldl_cons, ih (dictSet r k₀ v₀)]
    cases hrest : objGet k rest with
    | some w => simp [objGet, hrest]
    | none =>
      by_cases hk : k = k₀
      · subst hk
        simp [objGet, hrest, pyLookup_dictSet]
      · have hk' : ¬k₀ = k := fun hh => hk hh.symm
        simp [objGet, hrest, pyLookup_dictSet, hk, hk']

/-! ## Update lemmas: what one `results.update(...)` call writes does not
depend on the accumulator, so each stage has a well-defined contribution. -/

theorem mergeFromSeq2_fst (items : List PyVal) (r : Dict) :
    (mergeFromSeq2 r items).1 =
      (seqPairsTaken items).foldl (fun a kv => dictSet a kv.1 kv.2) r := by
  induction items generalizing r with
  | nil => simp [mergeFromSeq2, seqPairsTaken]
  | cons item rest ih =>
    cases h : seqPair2 item with
    | none => simp [mergeFromSeq2, seqPairsTaken, h]
    | some p => simp [mergeFromSeq2, seqPairsTaken, h, ih]

theorem mergeFromSeq2_snd (items : List PyVal) (r r' : Dict) :
    (mergeFromSeq2 r items).2 = (mergeFromSeq2 r' items).2 := by
  induction items generalizing r r' with
  | nil => simp [mergeFromSeq2]
  | cons item rest ih =>
    cases h : seqPair2 item with
    | none => simp [mergeFromSeq2, h]
    | some p =>
      simp only [mergeFromSeq2, h]
      exact ih _ _

theorem dictUpdate_fst (r : Dict) (v : PyVal) :
    (dictUpdate r v).1 = (updPairs v).foldl (fun a kv => dictSet a kv.1 kv.2) r := by
  cases v with
  | dict kvs => rfl
  | prim k =>
    simp only [dictUpdate, updPairs]
    cases h : pyIterSeq (.prim k) with
    | none => simp [h]
    | some items => simp [h, mergeFromSeq2_fst]
  | list xs =>
    simp only [dictUpdate, updPairs]
    cases h : pyIterSeq (.list xs) with
    | none => simp [h]
    | some items => simp [h, mergeFromSeq2_fst]

theorem dictUpdate_snd (r r' : Dict) (v : PyVal) :
    (dictUpdate r v).2 = (dictUpdate r' v).2 := by
  cases v with
  | dict kvs => rfl
  | prim k =>
    simp only [dictUpdate]
    cases h : pyIterSeq (.prim k) with
    | none => simp [h]
    | some items => simp [h, mergeFromSeq2_snd items r r']
  | list xs =>
    simp only [dictUpdate]
    cases h : pyIterSeq (.list xs) with
    | none => simp [h]
    | some items => simp [h, mergeFromSeq2_snd items r r']

theorem pyLookup_dictUpdate (r : Dict) (v : PyVal) (k : PyKey) :
    pyLookup k (dictUpdate r v).1 = (objGet k (updPairs v)).or (pyLookup k r) := by
  rw [dictUpdate_fst, pyLookup_foldl_dictSet]

/-! ## Stage-contribution lemmas -/

/-- A stage's effect on any accumulator is: its own contribution first,
then whatever the accumulator already had. -/
theorem pyLookup_mergeStage (r : Dict) (s : String) (k : PyKey) :
    pyLookup k (mergeStage r s) =
      (pyLookup k (mergeStage [] s)).or (pyLookup k r) := by
  cases h : loads s with
  | none => simp [mergeStage, h, pyLookup]
  | some v =>
    simp only [mergeStage, h]
    rw [pyLookup_dictUpdate, pyLookup_dictUpdate]
    cases objGet k (updPairs v) <;> simp [pyLookup]

/-- Same shape for the diagnosis stage (whose handler writes `summary`). -/
theorem pyLookup_mergeDiagnosis (r : Dict) (s : String) (k : PyKey) :
    pyLookup k (mergeDiagnosis r s) =
      (pyLookup k (mergeDiagnosis [] s)).or (pyLookup k r) := by
  cases h : loads s with
  | none =>
    simp only [mergeDiagnosis, h]
    rw [pyLookup_dictSet, pyLookup_dictSet]
    by_cases hk : k = PyKey.str "summary" <;> simp [hk, pyLookup]
  | some v =>
    simp only [mergeDiagnosis, h]
    rw [dictUpdate_snd r [] v]
    cases hb : (dictUpdate [] v).2 with
    | true =>
      simp only [if_pos rfl, if_true]
      rw [pyLookup_dictUpdate, pyLookup_dictUpdate]
      cases objGet k (updPairs v) <;> simp [pyLookup]
    | false =>
      simp only [Bool.false_eq_true, if_false]
      rw [pyLookup_dictSet, pyLookup_dictSet, pyLookup_dictUpdate,
        pyLookup_dictUpdate]
      by_cases hk : k = PyKey.str "summary"
      · simp [hk]
      · cases objGet k (updPairs v) <;> simp [hk, pyLookup]

/-- Master lemma: a lookup in the final `AnalysisResult` is decided by the
two always-set keys, then by the stages in reverse merge order. -/
theorem pyLookup_mergeResults (dOut pOut lOut mOut rt : String) (md : Dict)
    (k : PyKey) :
    pyLookup k (mergeResults dOut pOut lOut mOut rt md) =
      if k = .str "pages" then some (pyGet md (.str "pages") (.prim (.str "N/A")))
      else if k = .str "raw_text" then some (.prim (.str (strTake rt 3000)))
      else
        (pyLookup k (mergeStage [] mOut)).or
          ((pyLookup k (mergeStage [] lOut)).or
            ((pyLookup k (mergeStage [] pOut)).or
              (pyLookup k (mergeDiagnosis [] dOut)))) := by
  unfold mergeResults
  rw [pyLookup_dictSet, pyLookup_dictSet]
  by_cases hp : k = PyKey.str "pages"
  · simp [hp]
  · by_cases hr : k = PyKey.str "raw_text"
    · simp [hp, hr]
    · simp only [if_neg hp, if_neg hr]
      rw [pyLookup_mergeStage _ mOut, pyLookup_mergeStage _ lOut,
        pyLookup_mergeStage _ pOut, pyLookup_mergeDiagnosis _ dOut]

/-- Key sets versus contributions. -/
theorem pyLookup_mergeStage_of_not_contrib {s : String} {k : PyKey}
    (h : k ∉ stageContribKeys s) : pyLookup k (mergeStage [] s) = none :=
  (pyLookup_eq_none_iff k _).2 (by simpa [stageContribKeys] using h)

theorem pyLookup_mergeDiagnosis_of_not_contrib {s : String} {k : PyKey}
    (h : k ∉ diagContribKeys s) : pyLookup k (mergeDiagnosis [] s) = none :=
  (pyLookup_eq_none_iff k _).2 (by simpa [diagContribKeys] using h)

/-! ## `parse_document` branch equations -/

theorem parse_pdf_plumber_ok (env : IngestEnv) (f : UploadedFile)
    (pages : List String) (h1 : strEndsWith (pyLower f.name) ".pdf" = true)
    (h2 : env.pdfplumber = .ok pages) :
    parse_document env f =
      .ok (String.intercalate "\n\n" (pages.enum.map (fun p =>
             "[PAGE " ++ toString (p.1 + 1) ++ "]\n" ++ pdfPageText env (p.1 + 1) p.2)),
           dictSet (baseMetadata env f) (.str "pages") (.prim (.int pages.length))) := by
  simp [parse_document, h1, h2]

theorem parse_pdf_plumber_err (env : IngestEnv) (f : UploadedFile) (e : String)
    (h1 : strEndsWith (pyLower f.name) ".pdf" = true)
    (h2 : env.pdfplumber = .exn e) :
    parse_document env f = .error e := by
  simp [parse_document, h1, h2]

theorem parse_pdf_pypdf_ok (env : IngestEnv) (f : UploadedFile)
    (pages : List String) (h1 : strEndsWith (pyLower f.name) ".pdf" = true)
    (h2 : env.pdfplumber = .importError) (h3 : env.pypdf = .ok pages) :
    parse_document env f =
      .ok (String.intercalate "\n" pages,
           dictSet (baseMetadata env f) (.str "pages") (.prim (.int pages.length))) := by
  simp [parse_document, h1, h2, h3]

theorem parse_pdf_pypdf_err (env : IngestEnv) (f : UploadedFile) (e : String)
    (h1 : strEndsWith (pyLower f.name) ".pdf" = true)
    (h2 : env.pdfplumber = .importError) (h3 : env.pypdf = .exn e) :
    parse_document env f = .error e := by
  simp [parse_document, h1, h2, h3]

theorem parse_pdf_sentinel (env : IngestEnv) (f : UploadedFile)
    (h1 : strEndsWith (pyLower f.name) ".pdf" = true)
    (h2 : env.pdfplumber = .importError) (h3 : env.pypdf = .importError) :
    parse_document env f =
      .ok ("[PDF parsing failed - install pdfplumber]", baseMetadata env f) := by
  simp [parse_document, h1, h2, h3]

theorem parse_image_ok (env : IngestEnv) (f : UploadedFile) (s : String)
    (h1 : strEndsWith (pyLower f.name) ".pdf" = false)
    (h2 : imageExtensions.any (fun ext => strEndsWith (pyLower f.name) ext) = true)
    (h3 : env.imageOcr = .ok s) :
    parse_document env f =
      .ok (s, dictSet (baseMetadata env f) (.str "ocr_engine")
             (.prim (.str "tesseract"))) := by
  simp [parse_document, h1, h2, h3]

theorem parse_image_nolib (env : IngestEnv) (f : UploadedFile)
    (h1 : strEndsWith (pyLower f.name) ".pdf" = false)
    (h2 : imageExtensions.any (fun ext => strEndsWith (pyLower f.name) ext) = true)
    (h3 : env.imageOcr = .importError) :
    parse_document env f =
      .ok ("[Image OCR failed - install pytesseract]", baseMetadata env f) := by
  simp [parse_document, h1, h2, h3]

theorem parse_image_err (env : IngestEnv) (f : UploadedFile) (e : String)
    (h1 : strEndsWith (pyLower f.name) ".pdf" = false)
    (h2 : imageExtensions.any (fun ext => strEndsWith (pyLower f.name) ext) = true)
    (h3 : env.imageOcr = .exn e) :
    parse_document env f = .ok ("[OCR Error: " ++ e ++ "]", baseMetadata env f) := by
  simp [parse_document, h1, h2, h3]

theorem parse_other (env : IngestEnv) (f : UploadedFile)
    (h1 : strEndsWith (pyLower f.name) ".pdf" = false)
    (h2 : imageExtensions.any (fun ext => strEndsWith (pyLower f.name) ext) = false) :
    parse_document env f = .ok (env.decodeUtf8Ignore f.contents, baseMetadata env f) := by
  simp [parse_document, h1, h2]

/-! ## Claim C3 -/

/-- C3: for every pipeline run, regardless of whether any of the four stage
outputs parse, the returned AnalysisResult has `raw_text` equal to the first
3000 characters of the extracted text and `pages` equal to
`metadata.get("pages", "N/A")` — the metadata page count, or the literal
string "N/A" when the metadata has no `pages` entry. -/
theorem claim_C3 (dOut pOut lOut mOut rt : String) (md : Dict) :
    pyLookup (.str "raw_text") (mergeResults dOut pOut lOut mOut rt md) =
      some (.prim (.str (strTake rt 3000))) ∧
    pyLookup (.str "pages") (mergeResults dOut pOut lOut mOut rt md) =
      some (pyGet md (.str "pages") (.prim (.str "N/A"))) := by
  constructor
  · rw [pyLookup_mergeResults, if_neg (by decide), if_pos rfl]
  · rw [pyLookup_mergeResults, if_pos rfl]

/-! ## Claim C1 -/

/-- C1 (amended): provided document parsing returns (rather than raising —
see `claim_C1_counterexample`), `run_medical_analysis` returns the merged
AnalysisResult mapping for every combination of stage-output strings; no
exception propagates from the merge phase. -/
theorem claim_C1 (env : IngestEnv) (f : UploadedFile) (t : String) (md : Dict)
    (h : parse_document env f = .ok (t, md)) (ug up : Bool)
    (dOut pOut lOut mOut : String) :
    run_medical_analysis env f ug up dOut pOut lOut mOut =
      .ok (mergeResults dOut pOut lOut mOut t md) := by
  simp [run_medical_analysis, h]

theorem claim_C1_witness :
    run_medical_analysis bareEnv txtFile true true "\x7b\x7d" "bad" "\x7b\x7d" "42" =
      .ok (mergeResults "\x7b\x7d" "bad" "\x7b\x7d" "42" "Hi" mdTxt) :=
  claim_C1 bareEnv txtFile "Hi" mdTxt rfl true true "\x7b\x7d" "bad" "\x7b\x7d" "42"

/-- C1 fails as stated: for a malformed PDF upload in a world where
pdfplumber is installed, `pdfplumber.open` raises a non-`ImportError`
exception, the `except ImportError` handler does not catch it, and the
exception propagates out of `run_medical_analysis` — even though all four
stage outputs are well-formed strings. -/
theorem claim_C1_counterexample :
    run_medical_analysis badPdfEnv pdfFile true true "\x7b\x7d" "\x7b\x7d" "\x7b\x7d" "\x7b\x7d" =
      .error "PDFSyntaxError: No /Root object! - Is this really a PDF?" := rfl

/-! ## Claim C8 -/

/-- C8 (amended): `parse_document` fails soft when a parsing dependency is
missing (`ImportError`), and for images also when the OCR step raises any
exception; but a runtime (non-`ImportError`) error in a PDF parsing library
propagates (see `claim_C8_counterexample`). -/
theorem claim_C8 (env : IngestEnv) (f : UploadedFile) :
    (strEndsWith (pyLower f.name) ".pdf" = true →
      env.pdfplumber = .importError → env.pypdf = .importError →
      parse_document env f =
        .ok ("[PDF parsing failed - install pdfplumber]", baseMetadata env f)) ∧
    (strEndsWith (pyLower f.name) ".pdf" = false →
      imageExtensions.any (fun ext => strEndsWith (pyLower f.name) ext) = true →
      env.imageOcr = .importError →
      parse_document env f =
        .ok ("[Image OCR failed - install pytesseract]", baseMetadata env f)) ∧
    (∀ e : String, strEndsWith (pyLower f.name) ".pdf" = false →
      imageExtensions.any (fun ext => strEndsWith (pyLower f.name) ext) = true →
      env.imageOcr = .exn e →
      parse_document env f = .ok ("[OCR Error: " ++ e ++ "]", baseMetadata env f)) :=
  ⟨fun h1 h2 h3 => parse_pdf_sentinel env f h1 h2 h3,
   fun h1 h2 h3 => parse_image_nolib env f h1 h2 h3,
   fun e h1 h2 h3 => parse_image_err env f e h1 h2 h3⟩

theorem claim_C8_witness :
    parse_document bareEnv pdfFile =
      .ok ("[PDF parsing failed - install pdfplumber]", baseMetadata bareEnv pdfFile) ∧
    parse_document bareEnv imgFile =
      .ok ("[Image OCR failed - install pytesseract]", baseMetadata bareEnv imgFile) ∧
    parse_document ocrErrEnv imgFile =
      .ok ("[OCR Error: tesseract is not installed or not in PATH]",
           baseMetadata ocrErrEnv imgFile) :=
  ⟨(claim_C8 bareEnv pdfFile).1 (by decide) rfl rfl,
   (claim_C8 bareEnv imgFile).2.1 (by decide) (by decide) rfl,
   (claim_C8 ocrErrEnv imgFile).2.2 "tesseract is not installed or not in PATH"
     (by decide) (by decide) rfl⟩

/-- C8 fails as stated: when pdfplumber is missing and pypdf raises a
runtime parsing error, the inner `except ImportError` does not catch it and
`parse_document` raises instead of returning a sentinel. -/
theorem claim_C8_counterexample :
    parse_document badPypdfEnv pdfFile = .error "EOF marker not found" := rfl

/-! ## Claim C10 -/

/-- The five required keys and the integer page count, for the base
metadata dict. -/
theorem c10_base_shape (env : IngestEnv) (f : UploadedFile) :
    (PyKey.str "filename" ∈ (baseMetadata env f).map Prod.fst ∧
     PyKey.str "file_type" ∈ (baseMetadata env f).map Prod.fst ∧
     PyKey.str "file_size_kb" ∈ (baseMetadata env f).map Prod.fst ∧
     PyKey.str "pages" ∈ (baseMetadata env f).map Prod.fst ∧
     PyKey.str "hash" ∈ (baseMetadata env f).map Prod.fst) ∧
    pyLookup (.str "pages") (baseMetadata env f) = some (.prim (.int 1)) := by
  refine ⟨⟨?_, ?_, ?_, ?_, ?_⟩, ?_⟩ <;> simp [baseMetadata, pyLookup]

/-- Same for the base metadata with one key overwritten or added. -/
theorem c10_set_shape (env : IngestEnv) (f : UploadedFile) (k : PyKey) (v : PyVal) :
    (PyKey.str "filename" ∈ (dictSet (baseMetadata env f) k v).map Prod.fst ∧
     PyKey.str "file_type" ∈ (dictSet (baseMetadata env f) k v).map Prod.fst ∧
     PyKey.str "file_size_kb" ∈ (dictSet (baseMetadata env f) k v).map Prod.fst ∧
     PyKey.str "pages" ∈ (dictSet (baseMetadata env f) k v).map Prod.fst ∧
     PyKey.str "hash" ∈ (dictSet (baseMetadata env f) k v).map Prod.fst) ∧
    pyLookup (.str "pages") (dictSet (baseMetadata env f) k v) =
      if PyKey.str "pages" = k then some v
      else some (.prim (.int 1)) := by
  refine ⟨⟨?_, ?_, ?_, ?_, ?_⟩, ?_⟩
  · exact (mem_fst_dictSet _ _ _ _).2 (.inr (c10_base_shape env f).1.1)
  · exact (mem_fst_dictSet _ _ _ _).2 (.inr (c10_base_shape env f).1.2.1)
  · exact (mem_fst_dictSet _ _ _ _).2 (.inr (c10_base_shape env f).1.2.2.1)
  · exact (mem_fst_dictSet _ _ _ _).2 (.inr (c10_base_shape env f).1.2.2.2.1)
  · exact (mem_fst_dictSet _ _ _ _).2 (.inr (c10_base_shape env f).1.2.2.2.2)
  · rw [pyLookup_dictSet]
    by_cases hk : PyKey.str "pages" = k
    · simp [hk]
    · simp [hk, (c10_base_shape env f).2]

/-- C10: every metadata mapping returned by `parse_document` contains the
keys `filename`, `file_type`, `file_size_kb`, `pages` and `hash`; `pages`
is always an `int`, equal to 1 whenever no page count was determined (the
non-PDF branches, and the PDF branch when both parsing libraries are
missing); consequently the merged AnalysisResult's `pages` entry is never
the string "N/A" for a run whose document went through `parse_document`. -/
theorem claim_C10 (env : IngestEnv) (f : UploadedFile) (t : String) (md : Dict)
    (h : parse_document env f = .ok (t, md)) :
    (PyKey.str "filename" ∈ md.map Prod.fst ∧
     PyKey.str "file_type" ∈ md.map Prod.fst ∧
     PyKey.str "file_size_kb" ∈ md.map Prod.fst ∧
     PyKey.str "pages" ∈ md.map Prod.fst ∧
     PyKey.str "hash" ∈ md.map Prod.fst) ∧
    (∃ n : Int, pyLookup (.str "pages") md = some (.prim (.int n))) ∧
    (strEndsWith (pyLower f.name) ".pdf" = false →
      pyLookup (.str "pages") md = some (.prim (.int 1))) ∧
    (env.pdfplumber = .importError → env.pypdf = .importError →
      pyLookup (.str "pages") md = some (.prim (.int 1))) ∧
    (∀ rt dOut pOut lOut mOut : String,
      pyLookup (.str "pages") (mergeResults dOut pOut lOut mOut rt md) ≠
        some (.prim (.str "N/A"))) := by
  have merge_of :
      ∀ n : Int, pyLookup (.str "pages") md = some (.prim (.int n)) →
        ∀ rt dOut pOut lOut mOut : String,
          pyLookup (.str "pages") (mergeResults dOut pOut lOut mOut rt md) ≠
            some (.prim (.str "N/A")) := by
    intro n hn rt dOut pOut lOut mOut
    rw [pyLookup_mergeResults, if_pos rfl]
    simp [pyGet, hn]
  by_cases hpdf : strEndsWith (pyLower f.name) ".pdf" = true
  · cases hpl : env.pdfplumber with
    | ok pages =>
      rw [parse_pdf_plumber_ok env f pages hpdf hpl] at h
      simp only [Except.ok.injEq, Prod.mk.injEq] at h
      obtain ⟨ht, hmd⟩ := h
      subst hmd
      obtain ⟨hkeys, hp⟩ := c10_set_shape env f (.str "pages") (.prim (.int pages.length))
      rw [if_pos rfl] at hp
      exact ⟨hkeys, ⟨pages.length, hp⟩,
        fun hc => absurd (hc.symm.trans hpdf) Bool.false_ne_true,
        fun hc _ => absurd hc (by simp),
        merge_of pages.length hp⟩
    | importError =>
      cases hpy : env.pypdf with
      | ok pages =>
        rw [parse_pdf_pypdf_ok env f pages hpdf hpl hpy] at h
        simp only [Except.ok.injEq, Prod.mk.injEq] at h
        obtain ⟨ht, hmd⟩ := h
        subst hmd
        obtain ⟨hkeys, hp⟩ := c10_set_shape env f (.str "pages") (.prim (.int pages.length))
        rw [if_pos rfl] at hp
        exact ⟨hkeys, ⟨pages.length, hp⟩,
          fun hc => absurd (hc.symm.trans hpdf) Bool.false_ne_true,
          fun _ hc => absurd hc (by simp),
          merge_of pages.length hp⟩
      | importError =>
        rw [parse_pdf_sentinel env f hpdf hpl hpy] at h
        simp only [Except.ok.injEq, Prod.mk.injEq] at h
        obtain ⟨ht, hmd⟩ := h
        subst hmd
        obtain ⟨hkeys, hp⟩ := c10_base_shape env f
        exact ⟨hkeys, ⟨1, hp⟩, fun _ => hp, fun _ _ => hp, merge_of 1 hp⟩
      | exn e =>
        rw [parse_pdf_pypdf_err env f e hpdf hpl hpy] at h
        simp at h
    | exn e =>
      rw [parse_pdf_plumber_err env f e hpdf hpl] at h
      simp at h
  · have hpdf' : strEndsWith (pyLower f.name) ".pdf" = false :=
      Bool.eq_false_iff.2 hpdf
    by_cases himg :
        imageExtensions.any (fun ext => strEndsWith (pyLower f.name) ext) = true
    · cases hio : env.imageOcr with
      | ok s =>
        rw [parse_image_ok env f s hpdf' himg hio] at h
        simp only [Except.ok.injEq, Prod.mk.injEq] at h
        obtain ⟨ht, hmd⟩ := h
        subst hmd
        obtain ⟨hkeys, hp⟩ := c10_set_shape env f (.str "ocr_engine")
          (.prim (.str "tesseract"))
        rw [if_neg (by decide)] at hp
        exact ⟨hkeys, ⟨1, hp⟩, fun _ => hp, fun _ _ => hp, merge_of 1 hp⟩
      | importError =>
        rw [parse_image_nolib env f hpdf' himg hio] at h
        simp only [Except.ok.injEq, Prod.mk.injEq] at h
        obtain ⟨ht, hmd⟩ := h
        subst hmd
        obtain ⟨hkeys, hp⟩ := c10_base_shape env f
        exact ⟨hkeys, ⟨1, hp⟩, fun _ => hp, fun _ _ => hp, merge_of 1 hp⟩
      | exn e =>
        rw [parse_image_err env f e hpdf' himg hio] at h
        simp only [Except.ok.injEq, Prod.mk.injEq] at h
        obtain ⟨ht, hmd⟩ := h
        subst hmd
        obtain ⟨hkeys, hp⟩ := c10_base_shape env f
        exact ⟨hkeys, ⟨1, hp⟩, fun _ => hp, fun _ _ => hp, merge_of 1 hp⟩
    · have himg' :
          imageExtensions.any (fun ext => strEndsWith (pyLower f.name) ext) = false :=
        Bool.eq_false_iff.2 himg
      rw [parse_other env f hpdf' himg'] at h
      simp only [Except.ok.injEq, Prod.mk.injEq] at h
      obtain ⟨ht, hmd⟩ := h
      subst hmd
      obtain ⟨hkeys, hp⟩ := c10_base_shape env f
      exact ⟨hkeys, ⟨1, hp⟩, fun _ => hp, fun _ _ => hp, merge_of 1 hp⟩

theorem claim_C10_witness :
    (PyKey.str "filename" ∈ mdTxt.map Prod.fst ∧
     PyKey.str "file_type" ∈ mdTxt.map Prod.fst ∧
     PyKey.str "file_size_kb" ∈ mdTxt.map Prod.fst ∧
     PyKey.str "pages" ∈ mdTxt.map Prod.fst ∧
     PyKey.str "hash" ∈ mdTxt.map Prod.fst) ∧
    (∃ n : Int, pyLookup (.str "pages") mdTxt = some (.prim (.int n))) ∧
    pyLookup (.str "pages")
        (mergeResults "\x7b\x7d" "\x7b\x7d" "\x7b\x7d" "\x7b\x7d" "" mdTxt) ≠
      some (.prim (.str "N/A")) := by
  obtain ⟨hkeys, hex, hnp, hplib, hmerge⟩ :=
    claim_C10 bareEnv txtFile "Hi" mdTxt rfl
  exact ⟨hkeys, hex, hmerge "" "\x7b\x7d" "\x7b\x7d" "\x7b\x7d" "\x7b\x7d"⟩

/-! ## Claim C2 -/

/-- C2 (amended): if the diagnosis raw output is not valid JSON and no later
stage contributes a `summary` or `conditions` key, the final AnalysisResult
has `summary` equal to the raw output truncated to 2000 characters and no
`conditions` key.  (As frozen, with the assumption covering only
`conditions`, the claim fails: a later stage's `summary` key overwrites the
fallback — see `claim_C2_counterexample`.) -/
theorem claim_C2 (dOut pOut lOut mOut rt : String) (md : Dict)
    (hd : loads dOut = none)
    (hp1 : PyKey.str "summary" ∉ stageContribKeys pOut)
    (hp2 : PyKey.str "conditions" ∉ stageContribKeys pOut)
    (hl1 : PyKey.str "summary" ∉ stageContribKeys lOut)
    (hl2 : PyKey.str "conditions" ∉ stageContribKeys lOut)
    (hm1 : PyKey.str "summary" ∉ stageContribKeys mOut)
    (hm2 : PyKey.str "conditions" ∉ stageContribKeys mOut) :
    pyLookup (.str "summary") (mergeResults dOut pOut lOut mOut rt md) =
      some (.prim (.str (strTake dOut 2000))) ∧
    pyLookup (.str "conditions") (mergeResults dOut pOut lOut mOut rt md) =
      none := by
  constructor
  · rw [pyLookup_mergeResults, if_neg (by decide), if_neg (by decide),
      pyLookup_mergeStage_of_not_contrib hm1,
      pyLookup_mergeStage_of_not_contrib hl1,
      pyLookup_mergeStage_of_not_contrib hp1]
    have hdg : pyLookup (.str "summary") (mergeDiagnosis [] dOut) =
        some (.prim (.str (strTake dOut 2000))) := by
      simp [mergeDiagnosis, hd, dictSet, pyLookup]
    simp [hdg, Option.or]
  · rw [pyLookup_mergeResults, if_neg (by decide), if_neg (by decide),
      pyLookup_mergeStage_of_not_contrib hm2,
      pyLookup_mergeStage_of_not_contrib hl2,
      pyLookup_mergeStage_of_not_contrib hp2]
    have hdg : pyLookup (.str "conditions") (mergeDiagnosis [] dOut) = none := by
      simp [mergeDiagnosis, hd, dictSet, pyLookup]
    simp [hdg, Option.or]

theorem claim_C2_witness :
    pyLookup (.str "summary")
        (mergeResults "garbled output" "\x7b\"risks\": []\x7d" "\x7b\x7d" "\x7b\x7d" "" []) =
      some (.prim (.str (strTake "garbled output" 2000))) ∧
    pyLookup (.str "conditions")
        (mergeResults "garbled output" "\x7b\"risks\": []\x7d" "\x7b\x7d" "\x7b\x7d" "" []) =
      none :=
  claim_C2 "garbled output" "\x7b\"risks\": []\x7d" "\x7b\x7d" "\x7b\x7d" "" []
    rfl (by decide) (by decide) (by decide) (by decide) (by decide) (by decide)

/-- C2 fails as stated: the diagnosis output is invalid JSON, no later
stage contributes a `conditions` key (the claim's only assumption), yet
`summary` is the prognosis stage's value, not the 2000-character
truncation of the diagnosis output. -/
theorem claim_C2_counterexample :
    loads "Patient likely has condition X" = none ∧
    PyKey.str "conditions" ∉ stageContribKeys "\x7b\"summary\": \"overwritten\"\x7d" ∧
    PyKey.str "conditions" ∉ stageContribKeys "garbled" ∧
    pyLookup (.str "summary")
        (mergeResults "Patient likely has condition X"
          "\x7b\"summary\": \"overwritten\"\x7d" "garbled" "garbled" "" []) =
      some (.prim (.str "overwritten")) ∧
    "overwritten" ≠ strTake "Patient likely has condition X" 2000 :=
  ⟨rfl, by decide, by decide, rfl, by decide⟩

/-! ## Claim C4 -/

/-- C4 (amended): if the prognosis raw output is not valid JSON, the final
AnalysisResult is exactly what it would be had the prognosis stage returned
the empty JSON object `{}` (the failed stage is dropped silently, no error
surfaces); and the result has no `risks` key provided no other stage
contributes one.  (As frozen — `risks` unconditionally absent — the claim
fails: another stage may contribute a `risks` key; see
`claim_C4_counterexample`.) -/
theorem claim_C4 (dOut pOut lOut mOut rt : String) (md : Dict)
    (hp : loads pOut = none) :
    mergeResults dOut pOut lOut mOut rt md =
      mergeResults dOut "\x7b\x7d" lOut mOut rt md ∧
    (PyKey.str "risks" ∉ diagContribKeys dOut →
     PyKey.str "risks" ∉ stageContribKeys lOut →
     PyKey.str "risks" ∉ stageContribKeys mOut →
     pyLookup (.str "risks") (mergeResults dOut pOut lOut mOut rt md) =
       none) := by
  constructor
  · have h0 : loads "\x7b\x7d" = some (.dict []) := rfl
    simp [mergeResults, mergeStage, hp, h0, dictUpdate]
  · intro h1 h2 h3
    rw [pyLookup_mergeResults, if_neg (by decide), if_neg (by decide),
      pyLookup_mergeStage_of_not_contrib h3,
      pyLookup_mergeStage_of_not_contrib h2,
      pyLookup_mergeDiagnosis_of_not_contrib h1]
    have hpn : pyLookup (.str "risks") (mergeStage [] pOut) = none := by
      simp [mergeStage, hp, pyLookup]
    simp [hpn, Option.or]

theorem claim_C4_witness :
    mergeResults "\x7b\"summary\": \"s\"\x7d" "broken" "\x7b\x7d" "\x7b\x7d" "" [] =
      mergeResults "\x7b\"summary\": \"s\"\x7d" "\x7b\x7d" "\x7b\x7d" "\x7b\x7d" "" [] ∧
    pyLookup (.str "risks")
      (mergeResults "\x7b\"summary\": \"s\"\x7d" "broken" "\x7b\x7d" "\x7b\x7d" "" []) = none := by
  obtain ⟨heq, himp⟩ :=
    claim_C4 "\x7b\"summary\": \"s\"\x7d" "broken" "\x7b\x7d" "\x7b\x7d" "" [] rfl
  exact ⟨heq, himp (by decide) (by decide) (by decide)⟩

/-- C4 fails as stated: the prognosis output is invalid JSON, yet the final
AnalysisResult does contain a `risks` key, contributed by the diagnosis
stage. -/
theorem claim_C4_counterexample :
    loads "broken" = none ∧
    pyLookup (.str "risks")
        (mergeResults "\x7b\"risks\": []\x7d" "broken" "broken" "broken" "" []) =
      some (.list []) :=
  ⟨rfl, rfl⟩

/-! ## Claim C9 -/

/-- C9 (amended): a stage output that is valid JSON but not a JSON object
is treated like a parse failure exactly when Python's `dict.update` raises
on it (numbers, booleans, null, nonempty strings, and arrays containing a
non-key-value-pair element) — for the diagnosis stage the summary-truncation
fallback then fires.  But when `dict.update` accepts the value (an array of
key-value pairs; or an empty array or string contributing nothing), the
merge succeeds with no fallback: the pairs' keys enter the result and
`summary` is not set.  For non-diagnosis positions the stage contribution
is always just whatever `update` wrote before raising, dropped silently. -/
theorem claim_C9 (dOut pOut lOut mOut rt : String) (md : Dict) (v : PyVal)
    (hd : loads dOut = some v) (hnd : ∀ kvs, v ≠ .dict kvs)
    (hp : PyKey.str "summary" ∉ stageContribKeys pOut)
    (hl : PyKey.str "summary" ∉ stageContribKeys lOut)
    (hm : PyKey.str "summary" ∉ stageContribKeys mOut) :
    ((dictUpdate [] v).2 = false →
      pyLookup (.str "summary") (mergeResults dOut pOut lOut mOut rt md) =
        some (.prim (.str (strTake dOut 2000)))) ∧
    ((dictUpdate [] v).2 = true →
      pyLookup (.str "summary") (mergeResults dOut pOut lOut mOut rt md) =
        pyLookup (.str "summary") (dictUpdate [] v).1) ∧
    (∀ r : Dict, mergeStage r dOut = (dictUpdate r v).1) := by
  refine ⟨fun hb => ?_, fun hb => ?_, fun r => by simp [mergeStage, hd]⟩
  · rw [pyLookup_mergeResults, if_neg (by decide), if_neg (by decide),
      pyLookup_mergeStage_of_not_contrib hm,
      pyLookup_mergeStage_of_not_contrib hl,
      pyLookup_mergeStage_of_not_contrib hp]
    have hdg : pyLookup (.str "summary") (mergeDiagnosis [] dOut) =
        some (.prim (.str (strTake dOut 2000))) := by
      simp [mergeDiagnosis, hd, hb, pyLookup_dictSet]
    simp [hdg, Option.or]
  · rw [pyLookup_mergeResults, if_neg (by decide), if_neg (by decide),
      pyLookup_mergeStage_of_not_contrib hm,
      pyLookup_mergeStage_of_not_contrib hl,
      pyLookup_mergeStage_of_not_contrib hp]
    have hdg : pyLookup (.str "summary") (mergeDiagnosis [] dOut) =
        pyLookup (.str "summary") (dictUpdate [] v).1 := by
      simp [mergeDiagnosis, hd, hb]
    simp [hdg, Option.or]

theorem claim_C9_witness :
    pyLookup (.str "summary")
        (mergeResults "[1, 2, 3]" "\x7b\x7d" "\x7b\x7d" "\x7b\x7d" "" []) =
      some (.prim (.str (strTake "[1, 2, 3]" 2000))) ∧
    pyLookup (.str "summary")
        (mergeResults "[[\"a\", 1]]" "\x7b\x7d" "\x7b\x7d" "\x7b\x7d" "" []) =
      pyLookup (.str "summary")
        (dictUpdate [] (.list [.list [.prim (.str "a"), .prim (.int 1)]])).1 := by
  constructor
  · exact (claim_C9 "[1, 2, 3]" "\x7b\x7d" "\x7b\x7d" "\x7b\x7d" "" []
      (.list [.prim (.int 1), .prim (.int 2), .prim (.int 3)]) rfl
      (fun kvs h => PyVal.noConfusion h)
      (by decide) (by decide) (by decide)).1 rfl
  · exact (claim_C9 "[[\"a\", 1]]" "\x7b\x7d" "\x7b\x7d" "\x7b\x7d" "" []
      (.list [.list [.prim (.str "a"), .prim (.int 1)]]) rfl
      (fun kvs h => PyVal.noConfusion h)
      (by decide) (by decide) (by decide)).2.1 rfl

/-- C9 fails as stated: the diagnosis output `[["a", 1]]` is valid JSON and
not a JSON object, yet it is not treated like a parse failure —
`dict.update` accepts it as a key-value sequence, key `a` enters the final
AnalysisResult, and the summary-truncation fallback does not fire. -/
theorem claim_C9_counterexample :
    loads "[[\"a\", 1]]" =
      some (.list [.list [.prim (.str "a"), .prim (.int 1)]]) ∧
    pyLookup (.str "a") (mergeResults "[[\"a\", 1]]" "x" "x" "x" "" []) =
      some (.prim (.int 1)) ∧
    pyLookup (.str "summary") (mergeResults "[[\"a\", 1]]" "x" "x" "x" "" []) =
      none :=
  ⟨rfl, rfl, rfl⟩

/-! ## Claim C7 -/

/-- C7: the mock retriever ships exactly 5 canned passages; against it,
`medical_vector_search("diabetes")` returns a nonempty string containing at
least one canned passage, and every call returns the same string (the mock
holds no mutable state). -/
theorem claim_C7 :
    MOCK_DOCS.length = 5 ∧
    mock_vector_search_call 0 ≠ "" ∧
    (∃ d ∈ MOCK_DOCS, strContainsSub (mock_vector_search_call 0) d = true) ∧
    (∀ i j : Nat, mock_vector_search_call i = mock_vector_search_call j) := by
  refine ⟨by decide, by decide, ⟨MOCK_DOCS.headD "", by decide, by decide⟩,
    fun i j => rfl⟩

/-! ## Claim C6 -/

/-- C6 (amended): each of the four tools converts any exception from its
collaborator into a string result instead of propagating; three of them use
the form `"<label> error: <message>"` (labels `Vector search`,
`Graph query`, `Drug lookup`), while `pubmed_research_search` instead
returns `"PubMed search unavailable (install biopython): <message>"` —
which is not of the claimed `"<ToolName> error: <message>"` form (see
`claim_C6_counterexample`). -/
theorem claim_C6 (retr : RetrieverM) (g : GraphM) (ent : EntrezM)
    (q e : String) :
    (retr.similarity_search q 5 = .exn e →
      vector_search retr q = "Vector search error: " ++ e) ∧
    (g.query q = .exn e → graph_query g q = "Graph query error: " ++ e) ∧
    (ent.esearch q = .exn e →
      pubmed_search ent q =
        "PubMed search unavailable (install biopython): " ++ e) ∧
    (retr.similarity_search
        ("drug:" ++ q ++ " mechanism dosage side effects") 3 = .exn e →
      drugbank_lookup retr q = "Drug lookup error: " ++ e) := by
  refine ⟨fun h => ?_, fun h => ?_, fun h => ?_, fun h => ?_⟩ <;>
    simp [vector_search, graph_query, pubmed_search, drugbank_lookup, h]

theorem claim_C6_witness :
    vector_search failingRetriever "diabetes" =
      "Vector search error: connection refused" ∧
    graph_query failingGraph "diabetes" =
      "Graph query error: connection refused" ∧
    pubmed_search failingEntrez "diabetes" =
      "PubMed search unavailable (install biopython): boom" ∧
    drugbank_lookup failingRetriever "metformin" =
      "Drug lookup error: connection refused" :=
  ⟨(claim_C6 failingRetriever failingGraph failingEntrez "diabetes"
      "connection refused").1 rfl,
   (claim_C6 failingRetriever failingGraph failingEntrez "diabetes"
      "connection refused").2.1 rfl,
   (claim_C6 failingRetriever failingGraph failingEntrez "diabetes"
      "boom").2.2.1 rfl,
   (claim_C6 failingRetriever failingGraph failingEntrez "metformin"
      "connection refused").2.2.2 rfl⟩

theorem isPrefixOf_append_self (l y : List Char) :
    l.isPrefixOf (l ++ y) = true := by
  induction l with
  | nil => simp [List.isPrefixOf]
  | cons a as ih => simp [List.isPrefixOf, ih]

theorem listInfixOf_append_self (sub y : List Char) :
    listInfixOf sub (sub ++ y) = true := by
  cases sub with
  | nil => cases y <;> simp [listInfixOf, List.isPrefixOf]
  | cons c cs => simp [listInfixOf, isPrefixOf_append_self]

theorem listInfixOf_append_left (x sub l : List Char)
    (h : listInfixOf sub l = true) : listInfixOf sub (x ++ l) = true := by
  induction x with
  | nil => simpa using h
  | cons a as ih => simp [listInfixOf, ih]

theorem strDataAppend (a b : String) : (a ++ b).data = a.data ++ b.data := rfl

/-- C6 fails as stated: when the Entrez call raises, the tool returns the
"unavailable" message, which cannot be written as
`<ToolName> ++ " error: " ++ <message>` for any choice of name and
message. -/
theorem claim_C6_counterexample :
    pubmed_search failingEntrez "aspirin" =
      "PubMed search unavailable (install biopython): boom" ∧
    ¬∃ pre msg : String,
      pubmed_search failingEntrez "aspirin" = pre ++ " error: " ++ msg := by
  refine ⟨rfl, ?_⟩
  rintro ⟨pre, msg, hform⟩
  have h1 : (pubmed_search failingEntrez "aspirin").data =
      pre.data ++ ((" error: ").data ++ msg.data) := by
    rw [hform, strDataAppend, strDataAppend, List.append_assoc]
  have h2 : listInfixOf (" error: ").data
      (pubmed_search failingEntrez "aspirin").data = true := by
    rw [h1]
    exact listInfixOf_append_left pre.data _ _
      (listInfixOf_append_self (" error: ").data msg.data)
  exact absurd h2 (by decide)

/-! ## Claim C5 -/

theorem objGet_eq_none_of_not_mem (k : PyKey) (kvs : List (PyKey × PyVal))
    (h : k ∉ kvs.map Prod.fst) : objGet k kvs = none := by
  induction kvs with
  | nil => rfl
  | cons kv rest ih =>
    obtain ⟨k₀, v₀⟩ := kv
    simp only [List.map_cons, List.mem_cons, not_or] at h
    obtain ⟨h1, h2⟩ := h
    have h1' : ¬k₀ = k := fun hh => h1 hh.symm
    simp [objGet, ih h2, h1']

theorem mem_of_objGet_some {k : PyKey} {kvs : List (PyKey × PyVal)} {v : PyVal}
    (h : objGet k kvs = some v) : k ∈ kvs.map Prod.fst := by
  by_contra hc
  rw [objGet_eq_none_of_not_mem k kvs hc] at h
  cases h

/-- A stage whose output parses to a JSON object contributes exactly that
object's (deduplicated) entries. -/
theorem pyLookup_mergeStage_obj {s : String} {kvs : List (PyKey × PyVal)}
    (h : loads s = some (.dict kvs)) (k : PyKey) :
    pyLookup k (mergeStage [] s) = objGet k kvs := by
  simp only [mergeStage, h]
  rw [pyLookup_dictUpdate]
  cases hg : objGet k kvs <;> simp [updPairs, pyLookup, Option.or, hg]

/-- Same for the diagnosis stage (a mapping update always succeeds, so the
fallback does not fire). -/
theorem pyLookup_mergeDiagnosis_obj {s : String} {kvs : List (PyKey × PyVal)}
    (h : loads s = some (.dict kvs)) (k : PyKey) :
    pyLookup k (mergeDiagnosis [] s) = objGet k kvs := by
  have hb : (dictUpdate ([] : Dict) (.dict kvs)).2 = true := rfl
  simp only [mergeDiagnosis, h, hb, if_true]
  rw [pyLookup_dictUpdate]
  cases hg : objGet k kvs <;> simp [updPairs, pyLookup, Option.or, hg]

/-- The four documented schemas are pairwise disjoint and do not mention
the two always-set keys. -/
theorem schemaKeys_pairwise (k : PyKey) :
    (k ∈ diagnosisSchemaKeys → k ∉ prognosisSchemaKeys ∧
      k ∉ lifestyleSchemaKeys ∧ k ∉ medicationSchemaKeys ∧
      k ≠ .str "raw_text" ∧ k ≠ .str "pages") ∧
    (k ∈ prognosisSchemaKeys → k ∉ lifestyleSchemaKeys ∧
      k ∉ medicationSchemaKeys ∧ k ≠ .str "raw_text" ∧ k ≠ .str "pages") ∧
    (k ∈ lifestyleSchemaKeys → k ∉ medicationSchemaKeys ∧
      k ≠ .str "raw_text" ∧ k ≠ .str "pages") ∧
    (k ∈ medicationSchemaKeys → k ≠ .str "raw_text" ∧ k ≠ .str "pages") := by
  refine ⟨fun h => ?_, fun h => ?_, fun h => ?_, fun h => ?_⟩
  · simp only [diagnosisSchemaKeys, List.mem_cons, List.not_mem_nil, or_false] at h
    rcases h with rfl | rfl | rfl | rfl <;> decide
  · simp only [prognosisSchemaKeys, List.mem_cons, List.not_mem_nil, or_false] at h
    rcases h with rfl
    decide
  · simp only [lifestyleSchemaKeys, List.mem_cons, List.not_mem_nil, or_false] at h
    rcases h with rfl | rfl | rfl | rfl <;> decide
  · simp only [medicationSchemaKeys, List.mem_cons, List.not_mem_nil, or_false] at h
    rcases h with rfl | rfl | rfl <;> decide

/-- C5 (amended): when all four stage outputs are valid JSON objects, a
lookup of any key other than `raw_text`/`pages` in the final AnalysisResult
is the medication value, else the lifestyle value, else the prognosis
value, else the diagnosis value — i.e. the stages merge in the fixed order
diagnosis, prognosis, lifestyle, medication by flat overwrite, with the
later stage winning on collision; and when additionally every stage's
top-level keys stay within its documented schema, every top-level key of
every stage appears unmodified in the final AnalysisResult.  (As frozen,
with the schema condition read per-stage only, the claim fails: a later
stage's out-of-schema key overwrites an earlier schema-conforming stage's
key — see `claim_C5_counterexample`.) -/
theorem claim_C5 (dOut pOut lOut mOut rt : String) (md : Dict)
    (kd kp kl km : List (PyKey × PyVal))
    (hd : loads dOut = some (.dict kd)) (hp : loads pOut = some (.dict kp))
    (hl : loads lOut = some (.dict kl)) (hm : loads mOut = some (.dict km)) :
    (∀ k : PyKey, k ≠ .str "raw_text" → k ≠ .str "pages" →
      pyLookup k (mergeResults dOut pOut lOut mOut rt md) =
        (objGet k km).or ((objGet k kl).or ((objGet k kp).or (objGet k kd)))) ∧
    ((∀ a ∈ kd.map Prod.fst, a ∈ diagnosisSchemaKeys) →
     (∀ a ∈ kp.map Prod.fst, a ∈ prognosisSchemaKeys) →
     (∀ a ∈ kl.map Prod.fst, a ∈ lifestyleSchemaKeys) →
     (∀ a ∈ km.map Prod.fst, a ∈ medicationSchemaKeys) →
     (∀ k v, objGet k kd = some v →
        pyLookup k (mergeResults dOut pOut lOut mOut rt md) = some v) ∧
     (∀ k v, objGet k kp = some v →
        pyLookup k (mergeResults dOut pOut lOut mOut rt md) = some v) ∧
     (∀ k v, objGet k kl = some v →
        pyLookup k (mergeResults dOut pOut lOut mOut rt md) = some v) ∧
     (∀ k v, objGet k km = some v →
        pyLookup k (mergeResults dOut pOut lOut mOut rt md) = some v)) := by
  have main : ∀ k : PyKey, k ≠ .str "raw_text" → k ≠ .str "pages" →
      pyLookup k (mergeResults dOut pOut lOut mOut rt md) =
        (objGet k km).or ((objGet k kl).or ((objGet k kp).or (objGet k kd))) := by
    intro k hrt hpg
    rw [pyLookup_mergeResults, if_neg hpg, if_neg hrt,
      pyLookup_mergeStage_obj hm, pyLookup_mergeStage_obj hl,
      pyLookup_mergeStage_obj hp, pyLookup_mergeDiagnosis_obj hd]
  refine ⟨main, fun hsd hsp hsl hsm => ⟨?_, ?_, ?_, ?_⟩⟩
  · intro k v hv
    obtain ⟨hnp, hnl, hnm, hnrt, hnpg⟩ :=
      (schemaKeys_pairwise k).1 (hsd k (mem_of_objGet_some hv))
    rw [main k hnrt hnpg,
      objGet_eq_none_of_not_mem k km (fun hmem => hnm (hsm k hmem)),
      objGet_eq_none_of_not_mem k kl (fun hmem => hnl (hsl k hmem)),
      objGet_eq_none_of_not_mem k kp (fun hmem => hnp (hsp k hmem)), hv]
    rfl
  · intro k v hv
    obtain ⟨hnl, hnm, hnrt, hnpg⟩ :=
      (schemaKeys_pairwise k).2.1 (hsp k (mem_of_objGet_some hv))
    rw [main k hnrt hnpg,
      objGet_eq_none_of_not_mem k km (fun hmem => hnm (hsm k hmem)),
      objGet_eq_none_of_not_mem k kl (fun hmem => hnl (hsl k hmem)), hv]
    rfl
  · intro k v hv
    obtain ⟨hnm, hnrt, hnpg⟩ :=
      (schemaKeys_pairwise k).2.2.1 (hsl k (mem_of_objGet_some hv))
    rw [main k hnrt hnpg,
      objGet_eq_none_of_not_mem k km (fun hmem => hnm (hsm k hmem)), hv]
    rfl
  · intro k v hv
    obtain ⟨hnrt, hnpg⟩ :=
      (schemaKeys_pairwise k).2.2.2 (hsm k (mem_of_objGet_some hv))
    rw [main k hnrt hnpg, hv]
    rfl

theorem claim_C5_witness :
    pyLookup (.str "summary")
        (mergeResults "\x7b\"summary\": \"s\", \"conditions\": []\x7d" "\x7b\"risks\": []\x7d"
          "\x7b\"diet\": \x7b\x7d, \"exercises\": []\x7d" "\x7b\"medications\": []\x7d" "" []) =
      some (.prim (.str "s")) ∧
    pyLookup (.str "risks")
        (mergeResults "\x7b\"summary\": \"s\", \"conditions\": []\x7d" "\x7b\"risks\": []\x7d"
          "\x7b\"diet\": \x7b\x7d, \"exercises\": []\x7d" "\x7b\"medications\": []\x7d" "" []) =
      some (.list []) ∧
    pyLookup (.str "diet")
        (mergeResults "\x7b\"summary\": \"s\", \"conditions\": []\x7d" "\x7b\"risks\": []\x7d"
          "\x7b\"diet\": \x7b\x7d, \"exercises\": []\x7d" "\x7b\"medications\": []\x7d" "" []) =
      some (.dict []) ∧
    pyLookup (.str "medications")
        (mergeResults "\x7b\"summary\": \"s\", \"conditions\": []\x7d" "\x7b\"risks\": []\x7d"
          "\x7b\"diet\": \x7b\x7d, \"exercises\": []\x7d" "\x7b\"medications\": []\x7d" "" []) =
      some (.list []) := by
  obtain ⟨main, hsch⟩ := claim_C5
    "\x7b\"summary\": \"s\", \"conditions\": []\x7d" "\x7b\"risks\": []\x7d"
    "\x7b\"diet\": \x7b\x7d, \"exercises\": []\x7d" "\x7b\"medications\": []\x7d" "" []
    [(.str "summary", .prim (.str "s")), (.str "conditions", .list [])]
    [(.str "risks", .list [])]
    [(.str "diet", .dict []), (.str "exercises", .list [])]
    [(.str "medications", .list [])]
    rfl rfl rfl rfl
  obtain ⟨f1, f2, f3, f4⟩ := hsch (by decide) (by decide) (by decide) (by decide)
  exact ⟨f1 (.str "summary") (.prim (.str "s")) rfl,
         f2 (.str "risks") (.list []) rfl,
         f3 (.str "diet") (.dict []) rfl,
         f4 (.str "medications") (.list []) rfl⟩

/-- C5 fails as stated: the diagnosis output is valid JSON matching its
documented schema, yet its top-level `summary` key does not appear
unmodified in the final AnalysisResult, because the (out-of-schema)
lifestyle output overwrites it. -/
theorem claim_C5_counterexample :
    loads "\x7b\"summary\": \"s\", \"conditions\": [], \"risk_score\": \"1.0/10\", \"confidence\": \"90.0%\"\x7d" =
      some (.dict
        [(.str "summary", .prim (.str "s")), (.str "conditions", .list []),
         (.str "risk_score", .prim (.str "1.0/10")),
         (.str "confidence", .prim (.str "90.0%"))]) ∧
    (∀ a ∈ [PyKey.str "summary", PyKey.str "conditions", PyKey.str "risk_score",
        PyKey.str "confidence"], a ∈ diagnosisSchemaKeys) ∧
    pyLookup (.str "summary")
        (mergeResults
          "\x7b\"summary\": \"s\", \"conditions\": [], \"risk_score\": \"1.0/10\", \"confidence\": \"90.0%\"\x7d"
          "x" "\x7b\"summary\": \"evil\"\x7d" "x" "" []) =
      some (.prim (.str "evil")) ∧
    "evil" ≠ "s" :=
  ⟨rfl, by decide, rfl, by decide⟩

end MedAgent
